import Mathlib

/-!
Shallow embedding of the VibeTrack layered authorization model and the
membership / invitation / space-lifecycle operations, translated from the
TypeScript sources: the role catalogs and permission evaluators
(`utils/rbac.ts`, the version that exports `checkPermissionWithContext`),
the React context checks (`checkPermission`, `checkSpacePermission`), and
the persistence-facing operations in `services/api.ts` (`addOrgMember`,
`addWorkspaceMember`, `acceptInvite`, `softDeleteSpace`, `restoreSpace`).

Modelling conventions:
- TypeScript enums are string-valued; each is embedded as a Lean inductive
  together with its string value (`.str`) and its `Object.values` list
  (`.values`), since the code routinely compares roles as raw strings.
- The process-wide override store (`PERMISSION_OVERRIDES`, a
  `Record<string, Partial<Record<Permission, boolean>>>`) is embedded as a
  function `String → Option (Permission → Option Bool)`, matching the
  JavaScript semantics that an absent key reads as `undefined`.
- ISO-8601 timestamp strings are embedded as `Nat` instants; the code only
  ever compares them, and ISO-8601 order agrees with time order.
- Database tables are embedded as Lean lists carried in a `Db` record;
  a `supabase.insert` that hits the primary-key constraint is an
  `Except.error` carrying the storage message, matching
  `if (error) throw new Error(error.message)` at the call sites.
-/

-- ============================================================
-- types.ts: enum Permission (declaration order = Object.values order)
-- ============================================================

inductive Permission
  | CREATE_ORGANIZATION
  | DELETE_ORGANIZATION
  | MANAGE_BILLING
  | TRANSFER_OWNERSHIP
  | INVITE_TO_ORG
  | REMOVE_FROM_ORG
  | CREATE_WORKSPACE
  | DELETE_WORKSPACE
  | EDIT_WORKSPACE
  | MANAGE_WORKSPACE_SETTINGS
  | INVITE_TO_WORKSPACE
  | REMOVE_FROM_WORKSPACE
  | MANAGE_MEMBERS
  | CREATE_PROJECT
  | EDIT_PROJECT
  | DELETE_PROJECT
  | MANAGE_ACCESS
  | CREATE_SPACE
  | EDIT_SPACE
  | DELETE_SPACE
  | INVITE_TO_SPACE
  | REMOVE_FROM_SPACE
  | CREATE_SPRINT
  | MANAGE_SPRINT
  | CREATE_EPIC
  | CREATE_TASK
  | EDIT_TASK
  | DELETE_TASK
  | ASSIGN_TASK
  | UPDATE_TASK_STATUS
  | MANAGE_TEAMS
  | MANAGE_ROADMAP
  | VIEW_ANALYTICS
  | VIEW_ONLY
  deriving DecidableEq, BEq, Repr

/-- Object.values(Permission), in declaration order. -/
def Permission.all : List Permission :=
  [.CREATE_ORGANIZATION, .DELETE_ORGANIZATION, .MANAGE_BILLING, .TRANSFER_OWNERSHIP,
   .INVITE_TO_ORG, .REMOVE_FROM_ORG,
   .CREATE_WORKSPACE, .DELETE_WORKSPACE, .EDIT_WORKSPACE, .MANAGE_WORKSPACE_SETTINGS,
   .INVITE_TO_WORKSPACE, .REMOVE_FROM_WORKSPACE, .MANAGE_MEMBERS,
   .CREATE_PROJECT, .EDIT_PROJECT, .DELETE_PROJECT, .MANAGE_ACCESS,
   .CREATE_SPACE, .EDIT_SPACE, .DELETE_SPACE, .INVITE_TO_SPACE, .REMOVE_FROM_SPACE,
   .CREATE_SPRINT, .MANAGE_SPRINT, .CREATE_EPIC, .CREATE_TASK, .EDIT_TASK, .DELETE_TASK,
   .ASSIGN_TASK, .UPDATE_TASK_STATUS, .MANAGE_TEAMS, .MANAGE_ROADMAP, .VIEW_ANALYTICS,
   .VIEW_ONLY]

-- ============================================================
-- types.ts: the four role tiers and their string values
-- ============================================================

inductive OrgRole
  | FOUNDER | ADMIN | MANAGER | MEMBER | VIEWER
  deriving DecidableEq, BEq, Repr

def OrgRole.str : OrgRole → String
  | .FOUNDER => "Founder"
  | .ADMIN => "Admin"
  | .MANAGER => "Manager"
  | .MEMBER => "Member"
  | .VIEWER => "Viewer"

def OrgRole.values : List OrgRole := [.FOUNDER, .ADMIN, .MANAGER, .MEMBER, .VIEWER]

inductive WorkspaceRole
  | WORKSPACE_ADMIN | WORKSPACE_MANAGER | WORKSPACE_MEMBER | WORKSPACE_VIEWER
  deriving DecidableEq, BEq, Repr

def WorkspaceRole.str : WorkspaceRole → String
  | .WORKSPACE_ADMIN => "Workspace Admin"
  | .WORKSPACE_MANAGER => "Workspace Manager"
  | .WORKSPACE_MEMBER => "Workspace Member"
  | .WORKSPACE_VIEWER => "Workspace Viewer"

def WorkspaceRole.values : List WorkspaceRole :=
  [.WORKSPACE_ADMIN, .WORKSPACE_MANAGER, .WORKSPACE_MEMBER, .WORKSPACE_VIEWER]

inductive SpaceRole
  | SPACE_OWNER | SPACE_CONTRIBUTOR | SPACE_VIEWER
  deriving DecidableEq, BEq, Repr

def SpaceRole.str : SpaceRole → String
  | .SPACE_OWNER => "Space Owner"
  | .SPACE_CONTRIBUTOR => "Space Contributor"
  | .SPACE_VIEWER => "Space Viewer"

def SpaceRole.values : List SpaceRole := [.SPACE_OWNER, .SPACE_CONTRIBUTOR, .SPACE_VIEWER]

inductive UserRole
  | FOUNDER | CTO | CAO | ADMIN | TEAM_LEAD | PRODUCT_MANAGER | MEMBER | DESIGNER | QA | OPS
  deriving DecidableEq, BEq, Repr

def UserRole.str : UserRole → String
  | .FOUNDER => "Founder"
  | .CTO => "CTO"
  | .CAO => "CAO"
  | .ADMIN => "Admin"
  | .TEAM_LEAD => "Team Lead"
  | .PRODUCT_MANAGER => "Product Manager"
  | .MEMBER => "Developer"
  | .DESIGNER => "Designer"
  | .QA => "QA Engineer"
  | .OPS => "Operations"

def UserRole.values : List UserRole :=
  [.FOUNDER, .CTO, .CAO, .ADMIN, .TEAM_LEAD, .PRODUCT_MANAGER, .MEMBER, .DESIGNER, .QA, .OPS]

/-- Object.values(OrgRole).includes(s), returning the matching role
(the TypeScript code then uses the same string as the role value). -/
def orgRoleOfString (s : String) : Option OrgRole :=
  OrgRole.values.find? (fun r => r.str == s)

/-- Object.values(WorkspaceRole).includes(s), returning the matching role. -/
def workspaceRoleOfString (s : String) : Option WorkspaceRole :=
  WorkspaceRole.values.find? (fun r => r.str == s)

/-- Object.values(SpaceRole).includes(s), returning the matching role. -/
def spaceRoleOfString (s : String) : Option SpaceRole :=
  SpaceRole.values.find? (fun r => r.str == s)

/-- Object.values(UserRole).find(r => r === userRole) from the legacy fallback. -/
def userRoleOfString (s : String) : Option UserRole :=
  UserRole.values.find? (fun r => r.str == s)

-- ============================================================
-- utils/rbac.ts: role catalogs
-- ============================================================

/-- ORG_ROLE_PERMISSIONS from utils/rbac.ts. -/
def ORG_ROLE_PERMISSIONS : OrgRole → List Permission
  | .FOUNDER => Permission.all
  | .ADMIN =>
    [.CREATE_WORKSPACE, .EDIT_WORKSPACE, .DELETE_WORKSPACE, .INVITE_TO_ORG,
     .INVITE_TO_WORKSPACE, .CREATE_PROJECT, .EDIT_PROJECT, .DELETE_PROJECT,
     .CREATE_SPACE, .EDIT_SPACE, .CREATE_SPRINT, .MANAGE_SPRINT, .CREATE_EPIC,
     .CREATE_TASK, .EDIT_TASK, .DELETE_TASK, .ASSIGN_TASK, .UPDATE_TASK_STATUS,
     .MANAGE_TEAMS, .MANAGE_ROADMAP, .VIEW_ANALYTICS]
  | .MANAGER =>
    [.INVITE_TO_WORKSPACE, .CREATE_PROJECT, .EDIT_PROJECT, .CREATE_SPACE, .EDIT_SPACE,
     .INVITE_TO_SPACE, .CREATE_SPRINT, .MANAGE_SPRINT, .CREATE_EPIC, .CREATE_TASK,
     .EDIT_TASK, .ASSIGN_TASK, .UPDATE_TASK_STATUS, .MANAGE_TEAMS, .VIEW_ANALYTICS]
  | .MEMBER => [.CREATE_TASK, .EDIT_TASK, .UPDATE_TASK_STATUS, .VIEW_ANALYTICS]
  | .VIEWER => [.VIEW_ONLY]

/-- WORKSPACE_ROLE_PERMISSIONS from utils/rbac.ts. -/
def WORKSPACE_ROLE_PERMISSIONS : WorkspaceRole → List Permission
  | .WORKSPACE_ADMIN =>
    [.EDIT_WORKSPACE, .INVITE_TO_WORKSPACE, .REMOVE_FROM_WORKSPACE, .CREATE_PROJECT,
     .EDIT_PROJECT, .DELETE_PROJECT, .CREATE_SPACE, .EDIT_SPACE, .DELETE_SPACE,
     .CREATE_SPRINT, .MANAGE_SPRINT, .CREATE_EPIC, .CREATE_TASK, .EDIT_TASK,
     .DELETE_TASK, .ASSIGN_TASK, .UPDATE_TASK_STATUS, .MANAGE_TEAMS, .VIEW_ANALYTICS]
  | .WORKSPACE_MANAGER =>
    [.INVITE_TO_WORKSPACE, .CREATE_PROJECT, .EDIT_PROJECT, .CREATE_SPACE, .EDIT_SPACE,
     .CREATE_SPRINT, .MANAGE_SPRINT, .CREATE_EPIC, .CREATE_TASK, .EDIT_TASK,
     .ASSIGN_TASK, .UPDATE_TASK_STATUS, .MANAGE_TEAMS]
  | .WORKSPACE_MEMBER => [.CREATE_TASK, .EDIT_TASK, .UPDATE_TASK_STATUS]
  | .WORKSPACE_VIEWER => [.VIEW_ONLY]

/-- SPACE_ROLE_PERMISSIONS from utils/rbac.ts. -/
def SPACE_ROLE_PERMISSIONS : SpaceRole → List Permission
  | .SPACE_OWNER =>
    [.EDIT_SPACE, .DELETE_SPACE, .INVITE_TO_SPACE, .REMOVE_FROM_SPACE, .CREATE_SPRINT,
     .MANAGE_SPRINT, .CREATE_TASK, .EDIT_TASK, .DELETE_TASK, .ASSIGN_TASK,
     .UPDATE_TASK_STATUS]
  | .SPACE_CONTRIBUTOR => [.CREATE_TASK, .EDIT_TASK, .ASSIGN_TASK, .UPDATE_TASK_STATUS]
  | .SPACE_VIEWER => [.VIEW_ONLY]

/-- Legacy ROLE_PERMISSIONS from utils/rbac.ts (keyed by the UserRole strings;
every UserRole has an entry, so the `|| []` default is unreachable). -/
def ROLE_PERMISSIONS : UserRole → List Permission
  | .FOUNDER => Permission.all
  | .CTO =>
    [.CREATE_WORKSPACE, .EDIT_WORKSPACE, .CREATE_PROJECT, .EDIT_PROJECT, .CREATE_SPACE,
     .EDIT_SPACE, .CREATE_SPRINT, .MANAGE_SPRINT, .CREATE_EPIC, .CREATE_TASK,
     .EDIT_TASK, .DELETE_TASK, .ASSIGN_TASK, .UPDATE_TASK_STATUS, .MANAGE_TEAMS,
     .MANAGE_ROADMAP, .VIEW_ANALYTICS]
  | .CAO =>
    [.CREATE_WORKSPACE, .EDIT_WORKSPACE, .CREATE_PROJECT, .EDIT_PROJECT, .CREATE_SPACE,
     .EDIT_SPACE, .CREATE_SPRINT, .MANAGE_SPRINT, .CREATE_EPIC, .CREATE_TASK,
     .EDIT_TASK, .DELETE_TASK, .ASSIGN_TASK, .UPDATE_TASK_STATUS, .MANAGE_TEAMS,
     .MANAGE_ROADMAP, .VIEW_ANALYTICS]
  | .ADMIN =>
    [.CREATE_PROJECT, .EDIT_PROJECT, .CREATE_SPACE, .EDIT_SPACE, .CREATE_SPRINT,
     .MANAGE_SPRINT, .CREATE_EPIC, .CREATE_TASK, .EDIT_TASK, .ASSIGN_TASK,
     .UPDATE_TASK_STATUS, .MANAGE_TEAMS]
  | .PRODUCT_MANAGER =>
    [.CREATE_SPRINT, .MANAGE_SPRINT, .CREATE_EPIC, .CREATE_TASK, .EDIT_TASK,
     .ASSIGN_TASK, .UPDATE_TASK_STATUS, .MANAGE_TEAMS, .MANAGE_ROADMAP]
  | .TEAM_LEAD => [.CREATE_TASK, .EDIT_TASK, .ASSIGN_TASK, .UPDATE_TASK_STATUS]
  | .MEMBER => [.CREATE_TASK, .EDIT_TASK, .UPDATE_TASK_STATUS]
  | .DESIGNER => [.CREATE_TASK, .UPDATE_TASK_STATUS]
  | .QA => [.CREATE_TASK, .UPDATE_TASK_STATUS]
  | .OPS => [.UPDATE_TASK_STATUS]

-- ============================================================
-- utils/rbac.ts: override store and permission check functions
-- ============================================================

/-- One user's entry in PERMISSION_OVERRIDES: Partial<Record<Permission, boolean>>. -/
def Overrides : Type := Permission → Option Bool

/-- The process-wide PERMISSION_OVERRIDES map: Record<string, Overrides>. -/
def OverrideStore : Type := String → Option Overrides

/-- The initial (empty) PERMISSION_OVERRIDES map. -/
def emptyOverrideStore : OverrideStore := fun _ => none

/-- setPermissionOverrides from utils/rbac.ts: PERMISSION_OVERRIDES[userId] = overrides. -/
def setPermissionOverrides (store : OverrideStore) (userId : String) (overrides : Overrides) :
    OverrideStore :=
  fun u => if u = userId then some overrides else store u

/-- clearPermissionOverrides from utils/rbac.ts: delete PERMISSION_OVERRIDES[userId]. -/
def clearPermissionOverrides (store : OverrideStore) (userId : String) : OverrideStore :=
  fun u => if u = userId then none else store u

/-- The read pattern `userId && PERMISSION_OVERRIDES[userId]?.[permission] !== undefined`
shared by hasPermission and checkPermissionWithContext. -/
def lookupOverride (store : OverrideStore) (userId : Option String) (p : Permission) :
    Option Bool :=
  match userId with
  | none => none
  | some u =>
    match store u with
    | none => none
    | some ov => ov p

/-- hasOrgPermission from utils/rbac.ts. -/
def hasOrgPermission (orgRole : OrgRole) (permission : Permission) : Bool :=
  if orgRole = OrgRole.FOUNDER then true
  else (ORG_ROLE_PERMISSIONS orgRole).contains permission

/-- hasWorkspacePermission from utils/rbac.ts. -/
def hasWorkspacePermission (workspaceRole : WorkspaceRole) (permission : Permission) : Bool :=
  (WORKSPACE_ROLE_PERMISSIONS workspaceRole).contains permission

/-- hasSpacePermission from utils/rbac.ts. -/
def hasSpacePermission (spaceRole : SpaceRole) (permission : Permission) : Bool :=
  (SPACE_ROLE_PERMISSIONS spaceRole).contains permission

/-- hasPermission from utils/rbac.ts ("Legacy function for backward compatibility").
Order of the source: (1) Founder god-mode for the strings UserRole.FOUNDER and
OrgRole.FOUNDER (both "Founder"), (2) per-user overrides, (3) org roles,
(4) workspace roles, (5) space roles, (6) legacy defaults with the
`Object.values(UserRole).find(...) || UserRole.MEMBER` fallback. -/
def hasPermission (store : OverrideStore) (userRole : String) (permission : Permission)
    (userId : Option String) : Bool :=
  if userRole == UserRole.FOUNDER.str || userRole == OrgRole.FOUNDER.str then true
  else
    match lookupOverride store userId permission with
    | some v => v
    | none =>
      match orgRoleOfString userRole with
      | some r => hasOrgPermission r permission
      | none =>
        match workspaceRoleOfString userRole with
        | some r => hasWorkspacePermission r permission
        | none =>
          match spaceRoleOfString userRole with
          | some r => hasSpacePermission r permission
          | none =>
            let role := (userRoleOfString userRole).getD UserRole.MEMBER
            (ROLE_PERMISSIONS role).contains permission

/-- PermissionContext from utils/rbac.ts. -/
structure PermissionContext where
  orgRole : Option OrgRole := none
  workspaceRole : Option WorkspaceRole := none
  spaceRole : Option SpaceRole := none
  userId : Option String := none
  deriving DecidableEq, Repr

/-- checkPermissionWithContext from utils/rbac.ts. Order of the source:
(1) per-user overrides, (2) Founder org role, (3) space-level grant,
(4) workspace-level grant, (5) org-level grant, (6) deny. A tier that is
present but does not grant falls through to the next tier. -/
def checkPermissionWithContext (store : OverrideStore) (permission : Permission)
    (context : PermissionContext) : Bool :=
  match lookupOverride store context.userId permission with
  | some v => v
  | none =>
    if context.orgRole = some OrgRole.FOUNDER then true
    else if (match context.spaceRole with
             | some r => hasSpacePermission r permission
             | none => false) then true
    else if (match context.workspaceRole with
             | some r => hasWorkspacePermission r permission
             | none => false) then true
    else if (match context.orgRole with
             | some r => hasOrgPermission r permission
             | none => false) then true
    else false

-- ============================================================
-- types.ts: SpacePermission rows and the per-legacy-role defaults
-- ============================================================

/-- SpacePermission from types.ts: the nine boolean capability flags keyed by
(spaceId, userId). The DEFAULT_SPACE_PERMISSIONS literals in the source are
Partial records carrying exactly the nine flags; they are embedded below with
empty spaceId/userId, which checkSpacePermission never reads. -/
structure SpacePermission where
  spaceId : String := ""
  userId : String := ""
  canView : Bool
  canCreateTasks : Bool
  canEditTasks : Bool
  canDeleteTasks : Bool
  canManageBoard : Bool
  canManageSprints : Bool
  canEditSpace : Bool
  canDeleteSpace : Bool
  canManageMembers : Bool
  deriving DecidableEq, Repr

/-- The nine boolean capability-flag names of SpacePermission, as used for the
dynamic `record[permission]` reads in checkSpacePermission. -/
inductive SpacePermKey
  | canView | canCreateTasks | canEditTasks | canDeleteTasks | canManageBoard
  | canManageSprints | canEditSpace | canDeleteSpace | canManageMembers
  deriving DecidableEq, BEq, Repr

/-- The dynamic flag read `(record as any)[permission]` on a SpacePermission row. -/
def SpacePermission.getFlag (sp : SpacePermission) : SpacePermKey → Bool
  | .canView => sp.canView
  | .canCreateTasks => sp.canCreateTasks
  | .canEditTasks => sp.canEditTasks
  | .canDeleteTasks => sp.canDeleteTasks
  | .canManageBoard => sp.canManageBoard
  | .canManageSprints => sp.canManageSprints
  | .canEditSpace => sp.canEditSpace
  | .canDeleteSpace => sp.canDeleteSpace
  | .canManageMembers => sp.canManageMembers

/-- DEFAULT_SPACE_PERMISSIONS from types.ts: the static per-legacy-role default
table of the nine space flags. -/
def DEFAULT_SPACE_PERMISSIONS : UserRole → SpacePermission
  | .FOUNDER =>
    { canView := true, canCreateTasks := true, canEditTasks := true, canDeleteTasks := true,
      canManageBoard := true, canManageSprints := true, canEditSpace := true,
      canDeleteSpace := true, canManageMembers := true }
  | .CTO =>
    { canView := true, canCreateTasks := true, canEditTasks := true, canDeleteTasks := false,
      canManageBoard := true, canManageSprints := true, canEditSpace := true,
      canDeleteSpace := false, canManageMembers := true }
  | .CAO =>
    { canView := true, canCreateTasks := true, canEditTasks := true, canDeleteTasks := false,
      canManageBoard := true, canManageSprints := true, canEditSpace := true,
      canDeleteSpace := false, canManageMembers := true }
  | .ADMIN =>
    { canView := true, canCreateTasks := true, canEditTasks := true, canDeleteTasks := false,
      canManageBoard := true, canManageSprints := true, canEditSpace := false,
      canDeleteSpace := false, canManageMembers := false }
  | .TEAM_LEAD =>
    { canView := true, canCreateTasks := true, canEditTasks := true, canDeleteTasks := false,
      canManageBoard := true, canManageSprints := true, canEditSpace := false,
      canDeleteSpace := false, canManageMembers := false }
  | .PRODUCT_MANAGER =>
    { canView := true, canCreateTasks := true, canEditTasks := true, canDeleteTasks := false,
      canManageBoard := true, canManageSprints := true, canEditSpace := false,
      canDeleteSpace := false, canManageMembers := false }
  | .MEMBER =>
    { canView := true, canCreateTasks := true, canEditTasks := true, canDeleteTasks := false,
      canManageBoard := false, canManageSprints := false, canEditSpace := false,
      canDeleteSpace := false, canManageMembers := false }
  | .DESIGNER =>
    { canView := true, canCreateTasks := true, canEditTasks := false, canDeleteTasks := false,
      canManageBoard := false, canManageSprints := false, canEditSpace := false,
      canDeleteSpace := false, canManageMembers := false }
  | .QA =>
    { canView := true, canCreateTasks := true, canEditTasks := true, canDeleteTasks := false,
      canManageBoard := false, canManageSprints := false, canEditSpace := false,
      canDeleteSpace := false, canManageMembers := false }
  | .OPS =>
    { canView := true, canCreateTasks := true, canEditTasks := true, canDeleteTasks := false,
      canManageBoard := false, canManageSprints := false, canEditSpace := false,
      canDeleteSpace := false, canManageMembers := false }

-- ============================================================
-- ProjectContext: checkPermission and checkSpacePermission
-- ============================================================

/-- The fields of the signed-in User consulted by the permission checks
(`role` is the legacy global role string). -/
structure User where
  id : String
  email : String
  role : String
  deriving DecidableEq, Repr

/-- checkPermission from the ProjectContext provider: unauthenticated deny,
legacy-Founder allow, then hasPermission on the user's legacy role string.
The source's `activeSpaceId && currentSpacePermission` branch and its else
branch are the identical call, reproduced as in the source. -/
def checkPermission (store : OverrideStore) (currentUser : Option User)
    (activeSpaceId : Option String) (currentSpacePermission : Option SpacePermission)
    (permission : Permission) : Bool :=
  match currentUser with
  | none => false
  | some u =>
    if u.role == UserRole.FOUNDER.str then true
    else if activeSpaceId.isSome && currentSpacePermission.isSome then
      hasPermission store u.role permission (some u.id)
    else
      hasPermission store u.role permission (some u.id)

/-- checkSpacePermission from the ProjectContext provider: unauthenticated deny,
legacy-Founder allow, explicit SpacePermission row if loaded, else the
DEFAULT_SPACE_PERMISSIONS entry for the user's legacy role (false when the
role string is not a UserRole). -/
def checkSpacePermission (currentUser : Option User)
    (currentSpacePermission : Option SpacePermission) (permission : SpacePermKey) : Bool :=
  match currentUser with
  | none => false
  | some u =>
    if u.role == UserRole.FOUNDER.str then true
    else
      match currentSpacePermission with
      | some sp => sp.getFlag permission
      | none =>
        match userRoleOfString u.role with
        | some r => (DEFAULT_SPACE_PERMISSIONS r).getFlag permission
        | none => false

-- ============================================================
-- services/api.ts: persisted rows and the Db record
-- ============================================================

/-- org_members row (PRIMARY KEY (orgId, userId)); the role is stored as the
raw string the caller passed (the `invite.role as OrgRole` cast is a no-op). -/
structure OrgMember where
  orgId : String
  userId : String
  role : String
  joinedAt : Nat
  invitedBy : Option String := none
  deriving DecidableEq, Repr

/-- workspace_members row (PRIMARY KEY (workspaceId, userId)). -/
structure WorkspaceMember where
  workspaceId : String
  userId : String
  role : String
  joinedAt : Nat
  invitedBy : Option String := none
  deriving DecidableEq, Repr

/-- space_members row as inserted by acceptInvite (role plus the two legacy
boolean flags). -/
structure SpaceMemberRow where
  spaceId : String
  userId : String
  role : String
  canEdit : Bool
  canManage : Bool
  deriving DecidableEq, Repr

/-- workspaces row fields consulted here (orgId is nullable). -/
structure WorkspaceRow where
  id : String
  orgId : Option String := none
  deriving DecidableEq, Repr

/-- projects row fields consulted here. -/
structure ProjectRow where
  id : String
  workspaceId : String
  deriving DecidableEq, Repr

/-- spaces row: soft delete is the nullable deletedAt timestamp. -/
structure Space where
  id : String
  projectId : String
  name : String
  type : String
  deletedAt : Option Nat := none
  deriving DecidableEq, Repr

/-- issues row fields consulted here (the association to a space). -/
structure Issue where
  id : String
  spaceId : Option String := none
  deriving DecidableEq, Repr

/-- invites row. -/
structure Invite where
  id : String
  email : String
  type : String
  targetId : String
  role : String
  status : String
  token : String
  expiresAt : Nat
  invitedBy : String
  acceptedAt : Option Nat := none
  deriving DecidableEq, Repr

/-- The persisted tables touched by the operations under study. -/
structure Db where
  invites : List Invite := []
  orgMembers : List OrgMember := []
  workspaceMembers : List WorkspaceMember := []
  spaceMembers : List SpaceMemberRow := []
  workspaces : List WorkspaceRow := []
  projects : List ProjectRow := []
  spaces : List Space := []
  issues : List Issue := []
  deriving DecidableEq, Repr

-- ============================================================
-- services/api.ts: membership operations
-- ============================================================

/-- The storage error text a primary-key violation surfaces (the persistence
collaborator's uniqueness-violation message, rethrown verbatim by the api
layer's `if (error) throw new Error(error.message)`). -/
def duplicateKeyError : String := "duplicate key value violates unique constraint"

/-- addOrgMember from services/api.ts: a bare insert into org_members; any
storage error (in particular a duplicate (orgId, userId) key) is thrown to
the caller. -/
def addOrgMember (db : Db) (member : OrgMember) : Except String Db :=
  if db.orgMembers.any (fun x => x.orgId == member.orgId && x.userId == member.userId) then
    Except.error duplicateKeyError
  else
    Except.ok { db with orgMembers := db.orgMembers ++ [member] }

/-- addWorkspaceMember from services/api.ts: a bare insert into
workspace_members; any storage error is thrown to the caller. -/
def addWorkspaceMember (db : Db) (member : WorkspaceMember) : Except String Db :=
  if db.workspaceMembers.any
      (fun x => x.workspaceId == member.workspaceId && x.userId == member.userId) then
    Except.error duplicateKeyError
  else
    Except.ok { db with workspaceMembers := db.workspaceMembers ++ [member] }

/-- addSpaceMember from services/api.ts: a bare insert into space_members. -/
def addSpaceMember (db : Db) (member : SpaceMemberRow) : Except String Db :=
  if db.spaceMembers.any
      (fun x => x.spaceId == member.spaceId && x.userId == member.userId) then
    Except.error duplicateKeyError
  else
    Except.ok { db with spaceMembers := db.spaceMembers ++ [member] }

/-- getOrgMemberRole from services/api.ts: the role of (orgId, userId) in
org_members, or null. -/
def getOrgMemberRole (db : Db) (orgId userId : String) : Option String :=
  (db.orgMembers.find? (fun x => x.orgId == orgId && x.userId == userId)).map (fun x => x.role)

/-- getInviteByToken from services/api.ts. -/
def getInviteByToken (db : Db) (token : String) : Option Invite :=
  db.invites.find? (fun i => i.token == token)

/-- acceptInvite from services/api.ts. It looks the invite up by token, then
checks status and expiry (the email pinned to the invite is never consulted,
and the accepting identity's email is not even a parameter), then creates the
target-tier membership (cascading an implicit org Member membership for
workspace and space invites whose parent chain carries an orgId), and finally
marks the invite accepted. The return value is the database after the writes
that actually happened, paired with the thrown error message if any, so that
a failure mid-sequence keeps its earlier writes, exactly as the sequential
awaits in the source do. -/
def acceptInvite (db : Db) (token : String) (userId : String) (now : Nat) :
    Db × Option String :=
  match getInviteByToken db token with
  | none => (db, some "Invite not found")
  | some invite =>
    if invite.status != "pending" then (db, some "Invite is no longer valid")
    else if invite.expiresAt < now then (db, some "Invite has expired")
    else
      let afterAdd : Db × Option String :=
        if invite.type == "organization" then
          match addOrgMember db
              { orgId := invite.targetId, userId := userId, role := invite.role,
                joinedAt := now, invitedBy := some invite.invitedBy } with
          | Except.ok db2 => (db2, none)
          | Except.error e => (db, some e)
        else if invite.type == "workspace" then
          let orgStep : Db × Option String :=
            match db.workspaces.find? (fun w => w.id == invite.targetId) with
            | some w =>
              match w.orgId with
              | some oid =>
                if (getOrgMemberRole db oid userId).isNone then
                  match addOrgMember db
                      { orgId := oid, userId := userId, role := OrgRole.MEMBER.str,
                        joinedAt := now, invitedBy := some invite.invitedBy } with
                  | Except.ok db2 => (db2, none)
                  | Except.error e => (db, some e)
                else (db, none)
              | none => (db, none)
            | none => (db, none)
          match orgStep with
          | (d, some e) => (d, some e)
          | (d, none) =>
            match addWorkspaceMember d
                { workspaceId := invite.targetId, userId := userId, role := invite.role,
                  joinedAt := now, invitedBy := some invite.invitedBy } with
            | Except.ok d2 => (d2, none)
            | Except.error e => (d, some e)
        else if invite.type == "space" then
          let orgStep : Db × Option String :=
            match db.spaces.find? (fun s => s.id == invite.targetId) with
            | some s =>
              match db.projects.find? (fun p => p.id == s.projectId) with
              | some p =>
                match db.workspaces.find? (fun w => w.id == p.workspaceId) with
                | some w =>
                  match w.orgId with
                  | some oid =>
                    if (getOrgMemberRole db oid userId).isNone then
                      match addOrgMember db
                          { orgId := oid, userId := userId, role := OrgRole.MEMBER.str,
                            joinedAt := now, invitedBy := some invite.invitedBy } with
                      | Except.ok db2 => (db2, none)
                      | Except.error e => (db, some e)
                    else (db, none)
                  | none => (db, none)
                | none => (db, none)
              | none => (db, none)
            | none => (db, none)
          match orgStep with
          | (d, some e) => (d, some e)
          | (d, none) =>
            match addSpaceMember d
                { spaceId := invite.targetId, userId := userId, role := invite.role,
                  canEdit := invite.role != "Viewer", canManage := invite.role == "Space Owner" } with
            | Except.ok d2 => (d2, none)
            | Except.error e => (d, some e)
        else (db, none)
      match afterAdd with
      | (d, some e) => (d, some e)
      | (d, none) =>
        ({ d with invites := d.invites.map (fun i =>
            if i.id == invite.id then
              { i with status := "accepted", acceptedAt := some now }
            else i) }, none)

-- ============================================================
-- services/api.ts: space soft delete and restore
-- ============================================================

/-- softDeleteSpace from services/api.ts: update spaces set deletedAt = now
where id = spaceId. No permission evaluation happens here or in the
ProjectContext wrapper that calls it. -/
def softDeleteSpace (db : Db) (spaceId : String) (now : Nat) : Db :=
  { db with spaces := db.spaces.map (fun s =>
      if s.id == spaceId then { s with deletedAt := some now } else s) }

/-- restoreSpace from services/api.ts: update spaces set deletedAt = null
where id = spaceId. -/
def restoreSpace (db : Db) (spaceId : String) : Db :=
  { db with spaces := db.spaces.map (fun s =>
      if s.id == spaceId then { s with deletedAt := none } else s) }

/-- The delete path of components/Spaces.tsx: the Trash button is rendered only
when `canDeleteSpace = checkPermission(Permission.DELETE_SPACE)` holds, and
clicking it runs handleDeleteSpace, which asks window.confirm and then calls
softDeleteSpace. This function is that flow: when the check denies, the button
is absent, so the state is returned unchanged and no error of any kind is
produced. -/
def spacesDeleteFlow (store : OverrideStore) (currentUser : Option User)
    (activeSpaceId : Option String) (currentSpacePermission : Option SpacePermission)
    (confirmed : Bool) (db : Db) (id : String) (now : Nat) : Db :=
  if checkPermission store currentUser activeSpaceId currentSpacePermission
      Permission.DELETE_SPACE then
    if confirmed then softDeleteSpace db id now else db
  else db

-- ============================================================
-- Helper lemmas
-- ============================================================

/-- A store write for one user does not change what lookupOverride reads for a
different user. -/
theorem lookupOverride_set_ne (store : OverrideStore) (u w : String) (o : Overrides)
    (p : Permission) (h : w ≠ u) :
    lookupOverride (setPermissionOverrides store u o) (some w) p
      = lookupOverride store (some w) p := by
  simp [lookupOverride, setPermissionOverrides, h]

/-- Deleting one user's store entry does not change what lookupOverride reads
for a different user. -/
theorem lookupOverride_clear_ne (store : OverrideStore) (u w : String) (p : Permission)
    (h : w ≠ u) :
    lookupOverride (clearPermissionOverrides store u) (some w) p
      = lookupOverride store (some w) p := by
  simp [lookupOverride, clearPermissionOverrides, h]

/-- hasPermission reads the store only through lookupOverride. -/
theorem hasPermission_store_congr (s1 s2 : OverrideStore) (role : String) (p : Permission)
    (uid : Option String) (h : lookupOverride s1 uid p = lookupOverride s2 uid p) :
    hasPermission s1 role p uid = hasPermission s2 role p uid := by
  unfold hasPermission
  rw [h]

/-- checkPermissionWithContext reads the store only through lookupOverride. -/
theorem checkPermissionWithContext_store_congr (s1 s2 : OverrideStore) (p : Permission)
    (ctx : PermissionContext) (h : lookupOverride s1 ctx.userId p = lookupOverride s2 ctx.userId p) :
    checkPermissionWithContext s1 p ctx = checkPermissionWithContext s2 p ctx := by
  unfold checkPermissionWithContext
  rw [h]

/-- The soft-delete / restore round trip rewrites only the deletedAt column, so
the projection to (id, name, type) is unchanged row by row. -/
theorem roundtrip_spaces_proj (l : List Space) (id : String) (now : Nat) :
    ((l.map (fun s => if s.id == id then { s with deletedAt := some now } else s)).map
        (fun s => if s.id == id then { s with deletedAt := none } else s)).map
      (fun s => (s.id, s.name, s.type))
    = l.map (fun s => (s.id, s.name, s.type)) := by
  induction l with
  | nil => rfl
  | cons a t ih =>
    simp only [List.map_cons, ih]
    by_cases h : a.id = id
    · simp [h]
    · simp [h]

/-- After the round trip, every row carrying the targeted id has a null
deletedAt. -/
theorem roundtrip_spaces_null (l : List Space) (id : String) (now : Nat) :
    ((l.map (fun s => if s.id == id then { s with deletedAt := some now } else s)).map
        (fun s => if s.id == id then { s with deletedAt := none } else s)).all
      (fun s => s.id != id || s.deletedAt == none) = true := by
  induction l with
  | nil => rfl
  | cons a t ih =>
    simp only [List.map_cons, List.all_cons, ih, Bool.and_true]
    by_cases h : a.id = id
    · simp [h]
    · simp [h]

/-- softDeleteSpace stamps deletedAt on every row carrying the targeted id,
with no condition on any permission input (it has none). -/
theorem softDelete_marks (l : List Space) (id : String) (now : Nat) :
    (l.map (fun s => if s.id == id then { s with deletedAt := some now } else s)).all
      (fun s => s.id != id || s.deletedAt == some now) = true := by
  induction l with
  | nil => rfl
  | cons a t ih =>
    simp only [List.map_cons, List.all_cons, ih, Bool.and_true]
    by_cases h : a.id = id
    · simp [h]
    · simp [h]

-- ============================================================
-- C3 (Founder supremacy)
-- ============================================================

/-- C3: for every capability and every context with orgRole = Founder and no
override entry for the user, checkPermissionWithContext returns true; and
hasPermission returns true outright whenever the role string is Founder
(covering both UserRole.FOUNDER and OrgRole.FOUNDER, whose string value is
the same "Founder"). -/
theorem founder_supremacy :
    (∀ (store : OverrideStore) (p : Permission) (ctx : PermissionContext),
      lookupOverride store ctx.userId p = none →
      ctx.orgRole = some OrgRole.FOUNDER →
      checkPermissionWithContext store p ctx = true)
    ∧ (∀ (store : OverrideStore) (p : Permission) (uid : Option String),
      hasPermission store UserRole.FOUNDER.str p uid = true)
    ∧ (∀ (store : OverrideStore) (p : Permission) (uid : Option String),
      hasPermission store OrgRole.FOUNDER.str p uid = true) := by
  refine ⟨?_, ?_, ?_⟩
  · intro store p ctx h horg
    simp [checkPermissionWithContext, h, horg]
  · intro store p uid
    rfl
  · intro store p uid
    rfl

/-- C3 witness: a concrete Founder context with the empty override store. -/
theorem founder_supremacy_witness :
    checkPermissionWithContext emptyOverrideStore Permission.DELETE_ORGANIZATION
      { orgRole := some OrgRole.FOUNDER, userId := some "u9" } = true
    ∧ hasPermission emptyOverrideStore UserRole.FOUNDER.str
      Permission.DELETE_ORGANIZATION (some "u9") = true :=
  ⟨founder_supremacy.1 emptyOverrideStore Permission.DELETE_ORGANIZATION
      { orgRole := some OrgRole.FOUNDER, userId := some "u9" } rfl rfl,
   founder_supremacy.2.1 emptyOverrideStore Permission.DELETE_ORGANIZATION (some "u9")⟩

-- ============================================================
-- C8 (Soft-delete reversibility)
-- ============================================================

/-- C8: restoreSpace after softDeleteSpace returns deletedAt to null on the
targeted space and leaves the spaces table's id, name and type columns and the
whole issues table (hence every issue association) exactly as before the soft
delete. -/
theorem soft_delete_restore_roundtrip (db : Db) (id : String) (now : Nat) :
    (restoreSpace (softDeleteSpace db id now) id).issues = db.issues
    ∧ (restoreSpace (softDeleteSpace db id now) id).spaces.map (fun s => (s.id, s.name, s.type))
        = db.spaces.map (fun s => (s.id, s.name, s.type))
    ∧ (restoreSpace (softDeleteSpace db id now) id).spaces.all
        (fun s => s.id != id || s.deletedAt == none) = true :=
  ⟨rfl, roundtrip_spaces_proj db.spaces id now, roundtrip_spaces_null db.spaces id now⟩

-- ============================================================
-- C9 (unauthenticated state denies everything)
-- ============================================================

/-- C9: with currentUser null, checkPermission denies every capability and
checkSpacePermission denies every SpacePermission flag, whatever the store,
active space and loaded permission row are. -/
theorem unauthenticated_denies_all :
    (∀ (store : OverrideStore) (asid : Option String) (csp : Option SpacePermission)
      (p : Permission), checkPermission store none asid csp p = false)
    ∧ (∀ (csp : Option SpacePermission) (k : SpacePermKey),
      checkSpacePermission none csp k = false) :=
  ⟨fun _ _ _ _ => rfl, fun _ _ => rfl⟩

-- ============================================================
-- C10 (override mutations are frame-local to the targeted user)
-- ============================================================

/-- C10: setPermissionOverrides u and clearPermissionOverrides u leave both
hasPermission and checkPermissionWithContext unchanged for every other user w,
every role string / role context, and every capability. -/
theorem override_mutation_frame (store : OverrideStore) (u w : String) (o : Overrides)
    (h : w ≠ u) :
    (∀ (role : String) (p : Permission),
      hasPermission (setPermissionOverrides store u o) role p (some w)
        = hasPermission store role p (some w))
    ∧ (∀ (role : String) (p : Permission),
      hasPermission (clearPermissionOverrides store u) role p (some w)
        = hasPermission store role p (some w))
    ∧ (∀ (p : Permission) (ctx : PermissionContext), ctx.userId = some w →
      checkPermissionWithContext (setPermissionOverrides store u o) p ctx
        = checkPermissionWithContext store p ctx)
    ∧ (∀ (p : Permission) (ctx : PermissionContext), ctx.userId = some w →
      checkPermissionWithContext (clearPermissionOverrides store u) p ctx
        = checkPermissionWithContext store p ctx) := by
  refine ⟨?_, ?_, ?_, ?_⟩
  · intro role p
    exact hasPermission_store_congr _ _ role p (some w) (lookupOverride_set_ne store u w o p h)
  · intro role p
    exact hasPermission_store_congr _ _ role p (some w) (lookupOverride_clear_ne store u w p h)
  · intro p ctx hc
    refine checkPermissionWithContext_store_congr _ _ p ctx ?_
    rw [hc]
    exact lookupOverride_set_ne store u w o p h
  · intro p ctx hc
    refine checkPermissionWithContext_store_congr _ _ p ctx ?_
    rw [hc]
    exact lookupOverride_clear_ne store u w p h

/-- C10 witness: granting user u1 an override leaves u2's evaluation as it was. -/
theorem override_mutation_frame_witness :
    hasPermission (setPermissionOverrides emptyOverrideStore "u1" (fun _ => some false))
      "Developer" Permission.CREATE_TASK (some "u2")
      = hasPermission emptyOverrideStore "Developer" Permission.CREATE_TASK (some "u2") :=
  (override_mutation_frame emptyOverrideStore "u1" "u2" (fun _ => some false)
    (by decide)).1 "Developer" Permission.CREATE_TASK

-- ============================================================
-- C1 (Override supremacy)
-- ============================================================

/-- C1 counterexample: the Override Store holds the explicit value false for
user u1 on CREATE_TASK, yet hasPermission with the Founder role string (the
shared string value of UserRole.FOUNDER and OrgRole.FOUNDER) and userId u1
returns true, not the override value: in hasPermission the Founder god-mode
check precedes the override check, so the claim that the override value wins
in every role context is false. -/
theorem override_not_supreme_over_founder_cex :
    lookupOverride
      (fun u => if u = "u1" then
        some (fun p => if p = Permission.CREATE_TASK then some false else none)
       else none) (some "u1") Permission.CREATE_TASK = some false
    ∧ hasPermission
      (fun u => if u = "u1" then
        some (fun p => if p = Permission.CREATE_TASK then some false else none)
       else none)
      OrgRole.FOUNDER.str Permission.CREATE_TASK (some "u1") = true :=
  ⟨by decide, by decide⟩

/-- C1 amended: an explicit override value V for user U on capability C decides
checkPermissionWithContext outright in every context (including
orgRole = Founder), and decides hasPermission whenever the role string is not
the Founder string; when the role string is Founder (UserRole.FOUNDER or
OrgRole.FOUNDER, both "Founder"), hasPermission returns true regardless of the
override. -/
theorem override_precedence_amended :
    (∀ (store : OverrideStore) (p : Permission) (ctx : PermissionContext) (v : Bool),
      lookupOverride store ctx.userId p = some v →
      checkPermissionWithContext store p ctx = v)
    ∧ (∀ (store : OverrideStore) (role : String) (p : Permission) (u : String) (v : Bool),
      role ≠ UserRole.FOUNDER.str → role ≠ OrgRole.FOUNDER.str →
      lookupOverride store (some u) p = some v →
      hasPermission store role p (some u) = v)
    ∧ (∀ (store : OverrideStore) (p : Permission) (u : String),
      hasPermission store UserRole.FOUNDER.str p (some u) = true) := by
  refine ⟨?_, ?_, ?_⟩
  · intro store p ctx v h
    simp [checkPermissionWithContext, h]
  · intro store role p u v h1 h2 h3
    simp [hasPermission, h1, h2, h3]
  · intro store p u
    rfl

/-- C1 amended witness: both decisive cases at concrete inputs — the override
decides checkPermissionWithContext even under a Founder org role, and decides
hasPermission for a non-Founder role string. -/
theorem override_precedence_amended_witness :
    checkPermissionWithContext
      (fun u => if u = "u2" then
        some (fun p => if p = Permission.EDIT_TASK then some false else none)
       else none)
      Permission.EDIT_TASK
      { orgRole := some OrgRole.FOUNDER, userId := some "u2" } = false
    ∧ hasPermission
      (fun u => if u = "u2" then
        some (fun p => if p = Permission.EDIT_TASK then some false else none)
       else none)
      "Developer" Permission.EDIT_TASK (some "u2") = false :=
  ⟨override_precedence_amended.1
      (fun u => if u = "u2" then
        some (fun p => if p = Permission.EDIT_TASK then some false else none)
       else none)
      Permission.EDIT_TASK
      { orgRole := some OrgRole.FOUNDER, userId := some "u2" } false (by decide),
   override_precedence_amended.2.1
      (fun u => if u = "u2" then
        some (fun p => if p = Permission.EDIT_TASK then some false else none)
       else none)
      "Developer" Permission.EDIT_TASK "u2" false (by decide) (by decide) (by decide)⟩

-- ============================================================
-- C2 (Specificity: explicit space-level denial vs org-level grant)
-- ============================================================

/-- C2 counterexample: user u1 holds SpaceRole = SpaceViewer and
OrgRole = Admin, there is no override, EDIT_SPACE is granted by Admin's org
catalog but not by SpaceViewer's, and an explicit SpacePermission row for u1
carries canEditSpace = false. The flag-based checkSpacePermission honours the
denial, but the role evaluator checkPermissionWithContext — the function the
claim is about — never consults SpacePermission rows: the space tier simply
fails to grant, evaluation falls through, and the org-level Admin grant
returns true where the claim requires false. -/
theorem space_denial_overridden_by_org_cex :
    checkSpacePermission (some { id := "u1", email := "u1@x", role := "Developer" })
      (some { spaceId := "s1", userId := "u1", canView := true, canCreateTasks := true,
              canEditTasks := true, canDeleteTasks := false, canManageBoard := false,
              canManageSprints := false, canEditSpace := false, canDeleteSpace := false,
              canManageMembers := false }) SpacePermKey.canEditSpace = false
    ∧ checkPermissionWithContext emptyOverrideStore Permission.EDIT_SPACE
      { orgRole := some OrgRole.ADMIN, spaceRole := some SpaceRole.SPACE_VIEWER,
        userId := some "u1" } = true :=
  ⟨by decide, by decide⟩

/-- C2 amended: the explicit space-level denial is honoured only by the
flag-based checkSpacePermission (a loaded SpacePermission row with the flag
false yields false for any non-Founder legacy role); the role evaluator
checkPermissionWithContext does not consult SpacePermission rows, so in a
context with orgRole = Admin and spaceRole = SpaceViewer, no override, a
capability not granted by the SpaceViewer catalog but granted by the Admin
catalog evaluates to true — the org grant prevails over the space-level
denial. -/
theorem space_denial_amended :
    (∀ (u : User) (sp : SpacePermission) (k : SpacePermKey),
      u.role ≠ UserRole.FOUNDER.str → sp.getFlag k = false →
      checkSpacePermission (some u) (some sp) k = false)
    ∧ (∀ (store : OverrideStore) (ctx : PermissionContext) (p : Permission),
      lookupOverride store ctx.userId p = none →
      ctx.orgRole = some OrgRole.ADMIN →
      ctx.spaceRole = some SpaceRole.SPACE_VIEWER →
      hasSpacePermission SpaceRole.SPACE_VIEWER p = false →
      hasOrgPermission OrgRole.ADMIN p = true →
      checkPermissionWithContext store p ctx = true) := by
  refine ⟨?_, ?_⟩
  · intro u sp k h1 h2
    simp [checkSpacePermission, h1, h2]
  · intro store ctx p h1 h2 h3 h4 h5
    simp only [checkPermissionWithContext, h1, h2, h3, h4, h5]
    cases hw : (match ctx.workspaceRole with
                | some r => hasWorkspacePermission r p
                | none => false) <;> simp [hw]

/-- C2 amended witness: both parts at the concrete EDIT_SPACE scenario. -/
theorem space_denial_amended_witness :
    checkSpacePermission (some { id := "u3", email := "u3@x", role := "Developer" })
      (some { spaceId := "s1", userId := "u3", canView := true, canCreateTasks := true,
              canEditTasks := true, canDeleteTasks := false, canManageBoard := false,
              canManageSprints := false, canEditSpace := false, canDeleteSpace := false,
              canManageMembers := false }) SpacePermKey.canEditSpace = false
    ∧ checkPermissionWithContext emptyOverrideStore Permission.EDIT_SPACE
      { orgRole := some OrgRole.ADMIN, spaceRole := some SpaceRole.SPACE_VIEWER,
        userId := some "u3" } = true :=
  ⟨space_denial_amended.1 { id := "u3", email := "u3@x", role := "Developer" }
      { spaceId := "s1", userId := "u3", canView := true, canCreateTasks := true,
        canEditTasks := true, canDeleteTasks := false, canManageBoard := false,
        canManageSprints := false, canEditSpace := false, canDeleteSpace := false,
        canManageMembers := false } SpacePermKey.canEditSpace (by decide) (by decide),
   space_denial_amended.2 emptyOverrideStore
      { orgRole := some OrgRole.ADMIN, spaceRole := some SpaceRole.SPACE_VIEWER,
        userId := some "u3" } Permission.EDIT_SPACE
      (by decide) (by decide) (by decide) (by decide) (by decide)⟩

-- ============================================================
-- C4 (unknown role handling)
-- ============================================================

/-- C4 counterexample: the string "Intern" belongs to none of the role
enumerations and no override is present, yet hasPermission grants CREATE_TASK:
the legacy fallback substitutes UserRole.MEMBER for an unknown role instead of
the empty capability set, so deny-by-default does not hold. -/
theorem unknown_role_not_denied_cex :
    orgRoleOfString "Intern" = none
    ∧ workspaceRoleOfString "Intern" = none
    ∧ spaceRoleOfString "Intern" = none
    ∧ userRoleOfString "Intern" = none
    ∧ hasPermission emptyOverrideStore "Intern" Permission.CREATE_TASK none = true := by
  refine ⟨by decide, by decide, by decide, by decide, by decide⟩

/-- C4 amended: for a role string matching none of the role enumerations and
with no override present, the legacy fallback substitutes UserRole.MEMBER, so
evaluation returns exactly the membership of the capability in the legacy
Developer catalog (CREATE_TASK, EDIT_TASK, UPDATE_TASK_STATUS) rather than
denying everything; the lookup is a total function, so it never throws. -/
theorem unknown_role_member_fallback :
    ∀ (store : OverrideStore) (s : String) (p : Permission) (uid : Option String),
      orgRoleOfString s = none → workspaceRoleOfString s = none →
      spaceRoleOfString s = none → userRoleOfString s = none →
      lookupOverride store uid p = none →
      hasPermission store s p uid = (ROLE_PERMISSIONS UserRole.MEMBER).contains p := by
  intro store s p uid h1 h2 h3 h4 h5
  have hs : s ≠ "Founder" := by
    intro hcon
    rw [hcon] at h1
    exact absurd h1 (by decide)
  simp [hasPermission, hs, h1, h2, h3, h4, h5, UserRole.str, OrgRole.str]

/-- C4 amended witness: the unknown role string "Intern" evaluates via the
legacy Developer catalog. -/
theorem unknown_role_member_fallback_witness :
    hasPermission emptyOverrideStore "Intern" Permission.CREATE_TASK none
      = (ROLE_PERMISSIONS UserRole.MEMBER).contains Permission.CREATE_TASK :=
  unknown_role_member_fallback emptyOverrideStore "Intern" Permission.CREATE_TASK none
    (by decide) (by decide) (by decide) (by decide) (by rfl)

-- ============================================================
-- C5 (add-member on an existing key)
-- ============================================================

/-- C5 counterexample: with the (entityId, userId) key already present, a
second addOrgMember / addWorkspaceMember call surfaces the storage uniqueness
error to the caller instead of succeeding as a no-op: the api functions throw
on any insert error and contain no special case for uniqueness violations. -/
theorem duplicate_member_errors_cex :
    addOrgMember
      { orgMembers := [{ orgId := "o1", userId := "u1", role := "Member", joinedAt := 1 }] }
      { orgId := "o1", userId := "u1", role := "Member", joinedAt := 2 }
      = Except.error duplicateKeyError
    ∧ addWorkspaceMember
      { workspaceMembers := [{ workspaceId := "w1", userId := "u1",
                               role := "Workspace Member", joinedAt := 1 }] }
      { workspaceId := "w1", userId := "u1", role := "Workspace Member", joinedAt := 2 }
      = Except.error duplicateKeyError :=
  ⟨rfl, rfl⟩

/-- C5 amended: when the (entityId, userId) key is already present, the insert
is rejected by the primary key, so exactly one membership row remains, but the
error is thrown to the caller rather than being treated as a successful no-op
(the Except.error result carries no modified table). -/
theorem duplicate_member_surfaces_error :
    (∀ (db : Db) (m : OrgMember),
      db.orgMembers.any (fun x => x.orgId == m.orgId && x.userId == m.userId) = true →
      addOrgMember db m = Except.error duplicateKeyError)
    ∧ (∀ (db : Db) (m : WorkspaceMember),
      db.workspaceMembers.any
        (fun x => x.workspaceId == m.workspaceId && x.userId == m.userId) = true →
      addWorkspaceMember db m = Except.error duplicateKeyError) := by
  refine ⟨?_, ?_⟩
  · intro db m h
    simp [addOrgMember, h]
  · intro db m h
    simp [addWorkspaceMember, h]

/-- C5 amended witness: the duplicate insert errors at a concrete one-row
table. -/
theorem duplicate_member_surfaces_error_witness :
    addOrgMember
      { orgMembers := [{ orgId := "o2", userId := "u2", role := "Admin", joinedAt := 1 }] }
      { orgId := "o2", userId := "u2", role := "Admin", joinedAt := 3 }
      = Except.error duplicateKeyError :=
  duplicate_member_surfaces_error.1
    { orgMembers := [{ orgId := "o2", userId := "u2", role := "Admin", joinedAt := 1 }] }
    { orgId := "o2", userId := "u2", role := "Admin", joinedAt := 3 } (by decide)

-- ============================================================
-- C6 (acceptInvite guards)
-- ============================================================

/-- C6 counterexample: an organization invite pinned to alice's email, still
pending and unexpired, is accepted with userId "bob"; the call succeeds, the
org membership row for bob is created and the invite is marked accepted. The
accepting identity's email is not a parameter of acceptInvite and the pinned
invite email is never consulted, so the claimed email-match requirement does
not exist: acceptance succeeds for any user id whatever the pinned email. -/
theorem accept_invite_ignores_email_cex :
    (acceptInvite
      { invites := [{ id := "i1", email := "alice@example.com", type := "organization",
                      targetId := "org1", role := "Member", status := "pending",
                      token := "tok", expiresAt := 100, invitedBy := "f1" }] }
      "tok" "bob" 50).2 = none
    ∧ (acceptInvite
      { invites := [{ id := "i1", email := "alice@example.com", type := "organization",
                      targetId := "org1", role := "Member", status := "pending",
                      token := "tok", expiresAt := 100, invitedBy := "f1" }] }
      "tok" "bob" 50).1.orgMembers
      = [{ orgId := "org1", userId := "bob", role := "Member", joinedAt := 50,
           invitedBy := some "f1" }]
    ∧ (acceptInvite
      { invites := [{ id := "i1", email := "alice@example.com", type := "organization",
                      targetId := "org1", role := "Member", status := "pending",
                      token := "tok", expiresAt := 100, invitedBy := "f1" }] }
      "tok" "bob" 50).1.invites.map (fun i => i.status) = ["accepted"] :=
  ⟨rfl, rfl, rfl⟩

/-- C6 amended: acceptInvite requires the invite to exist, be pending, and be
unexpired — a missing token produces "Invite not found", a non-pending invite
"Invite is no longer valid", an expired one "Invite has expired" (distinct
messages), and each of these failures happens before any write, so the
database is unchanged; when the checks pass, an organization invite with no
pre-existing membership creates exactly the target membership row and returns
no error. No email comparison of any kind is performed. -/
theorem accept_invite_checks :
    (∀ (db : Db) (token uid : String) (now : Nat),
      getInviteByToken db token = none →
      acceptInvite db token uid now = (db, some "Invite not found"))
    ∧ (∀ (db : Db) (token uid : String) (now : Nat) (inv : Invite),
      getInviteByToken db token = some inv → inv.status ≠ "pending" →
      acceptInvite db token uid now = (db, some "Invite is no longer valid"))
    ∧ (∀ (db : Db) (token uid : String) (now : Nat) (inv : Invite),
      getInviteByToken db token = some inv → inv.status = "pending" →
      inv.expiresAt < now →
      acceptInvite db token uid now = (db, some "Invite has expired"))
    ∧ (∀ (db : Db) (token uid : String) (now : Nat) (inv : Invite),
      getInviteByToken db token = some inv → inv.status = "pending" →
      ¬ inv.expiresAt < now → inv.type = "organization" →
      db.orgMembers.any (fun x => x.orgId == inv.targetId && x.userId == uid) = false →
      (acceptInvite db token uid now).2 = none
      ∧ (acceptInvite db token uid now).1.orgMembers
          = db.orgMembers ++ [{ orgId := inv.targetId, userId := uid, role := inv.role,
                                joinedAt := now, invitedBy := some inv.invitedBy }]) := by
  refine ⟨?_, ?_, ?_, ?_⟩
  · intro db token uid now h
    simp [acceptInvite, h]
  · intro db token uid now inv h1 h2
    simp [acceptInvite, h1, h2]
  · intro db token uid now inv h1 h2 h3
    simp [acceptInvite, h1, h2, h3]
  · intro db token uid now inv h1 h2 h3 h4 h5
    simp [acceptInvite, addOrgMember, h1, h2, h3, h4, h5]

/-- C6 amended witness: each guard at a concrete database — a missing token, a
rejected invite, an expired invite, and a clean organization acceptance. -/
theorem accept_invite_checks_witness :
    acceptInvite { } "tok" "bob" 50 = ({ }, some "Invite not found")
    ∧ acceptInvite
        { invites := [{ id := "i2", email := "a@x", type := "organization",
                        targetId := "org1", role := "Member", status := "rejected",
                        token := "tok2", expiresAt := 100, invitedBy := "f1" }] }
        "tok2" "bob" 50
      = ({ invites := [{ id := "i2", email := "a@x", type := "organization",
                         targetId := "org1", role := "Member", status := "rejected",
                         token := "tok2", expiresAt := 100, invitedBy := "f1" }] },
         some "Invite is no longer valid")
    ∧ acceptInvite
        { invites := [{ id := "i3", email := "a@x", type := "organization",
                        targetId := "org1", role := "Member", status := "pending",
                        token := "tok3", expiresAt := 10, invitedBy := "f1" }] }
        "tok3" "bob" 50
      = ({ invites := [{ id := "i3", email := "a@x", type := "organization",
                         targetId := "org1", role := "Member", status := "pending",
                         token := "tok3", expiresAt := 10, invitedBy := "f1" }] },
         some "Invite has expired")
    ∧ (acceptInvite
        { invites := [{ id := "i4", email := "a@x", type := "organization",
                        targetId := "org1", role := "Member", status := "pending",
                        token := "tok4", expiresAt := 100, invitedBy := "f1" }] }
        "tok4" "carol" 50).2 = none :=
  ⟨accept_invite_checks.1 { } "tok" "bob" 50 (by rfl),
   accept_invite_checks.2.1
     { invites := [{ id := "i2", email := "a@x", type := "organization",
                     targetId := "org1", role := "Member", status := "rejected",
                     token := "tok2", expiresAt := 100, invitedBy := "f1" }] }
     "tok2" "bob" 50
     { id := "i2", email := "a@x", type := "organization", targetId := "org1",
       role := "Member", status := "rejected", token := "tok2", expiresAt := 100,
       invitedBy := "f1" } (by rfl) (by decide),
   accept_invite_checks.2.2.1
     { invites := [{ id := "i3", email := "a@x", type := "organization",
                     targetId := "org1", role := "Member", status := "pending",
                     token := "tok3", expiresAt := 10, invitedBy := "f1" }] }
     "tok3" "bob" 50
     { id := "i3", email := "a@x", type := "organization", targetId := "org1",
       role := "Member", status := "pending", token := "tok3", expiresAt := 10,
       invitedBy := "f1" } (by rfl) (by decide) (by decide),
   (accept_invite_checks.2.2.2
     { invites := [{ id := "i4", email := "a@x", type := "organization",
                     targetId := "org1", role := "Member", status := "pending",
                     token := "tok4", expiresAt := 100, invitedBy := "f1" }] }
     "tok4" "carol" 50
     { id := "i4", email := "a@x", type := "organization", targetId := "org1",
       role := "Member", status := "pending", token := "tok4", expiresAt := 100,
       invitedBy := "f1" } (by rfl) (by decide) (by decide) (by decide) (by decide)).1⟩

-- ============================================================
-- C7 (soft delete permission guard)
-- ============================================================

/-- C7 counterexample: a Developer user, for whom the DELETE_SPACE evaluation
denies, can still have softDeleteSpace flip deletedAt: softDeleteSpace performs
no permission evaluation at all (it does not even receive the user), so the
claimed evaluate-before-write guard does not exist in softDeleteSpace. -/
theorem soft_delete_unguarded_cex :
    checkPermission emptyOverrideStore
      (some { id := "u1", email := "u1@x", role := "Developer" })
      none none Permission.DELETE_SPACE = false
    ∧ (softDeleteSpace
        { spaces := [{ id := "s1", projectId := "p1", name := "Dev",
                       type := "development" }] } "s1" 5).spaces
      = [{ id := "s1", projectId := "p1", name := "Dev", type := "development",
           deletedAt := some 5 }] :=
  ⟨by decide, by decide⟩

/-- C7 amended: the DELETE_SPACE check lives in the Spaces component, not in
softDeleteSpace: the delete control is rendered only when checkPermission
grants DELETE_SPACE (evaluated from the current user's legacy role and
overrides, not from the target space's own context), so on deny the flow
leaves the database unchanged — but silently, with no permission error
surfaced; softDeleteSpace itself stamps deletedAt unconditionally on every
row carrying the targeted id. -/
theorem soft_delete_guard_amended :
    (∀ (store : OverrideStore) (cu : Option User) (asid : Option String)
      (csp : Option SpacePermission) (confirmed : Bool) (db : Db) (id : String) (now : Nat),
      checkPermission store cu asid csp Permission.DELETE_SPACE = false →
      spacesDeleteFlow store cu asid csp confirmed db id now = db)
    ∧ (∀ (db : Db) (id : String) (now : Nat),
      (softDeleteSpace db id now).spaces.all
        (fun s => s.id != id || s.deletedAt == some now) = true) := by
  refine ⟨?_, ?_⟩
  · intro store cu asid csp confirmed db id now h
    simp [spacesDeleteFlow, h]
  · intro db id now
    exact softDelete_marks db.spaces id now

/-- C7 amended witness: the gated flow is a no-op for a concrete denied user. -/
theorem soft_delete_guard_amended_witness :
    spacesDeleteFlow emptyOverrideStore
      (some { id := "u1", email := "u1@x", role := "Developer" }) none none true
      { spaces := [{ id := "s1", projectId := "p1", name := "Dev",
                     type := "development" }] } "s1" 5
    = { spaces := [{ id := "s1", projectId := "p1", name := "Dev",
                     type := "development" }] } :=
  soft_delete_guard_amended.1 emptyOverrideStore
    (some { id := "u1", email := "u1@x", role := "Developer" }) none none true
    { spaces := [{ id := "s1", projectId := "p1", name := "Dev",
                   type := "development" }] } "s1" 5 (by decide)
